import Mathlib

/-!
Verification of the Playwright e-commerce test-orchestration repository.

The repository's only executable source file is `playwright.config.ts`; it is
embedded directly below (`Env`, `UseOptions`, `PlaywrightConfig`,
`defineConfig`).  The Page Object / Base Page / Scenario Runner / Test Data
layers are described by the repository's design documents but their code is
not in the source tree, so they are modelled from the specification; every
such definition carries a doc comment starting with `Modelled from the spec:`.
-/

namespace PW

/-! ### Embedding of src/playwright.config.ts -/

/-- The process environment read by `playwright.config.ts`:
`process.env['CI']` and `process.env['BASE_URL']` (absent = `none`). -/
structure Env where
  ci : Option String
  baseUrl : Option String

/-- JavaScript double-negation truthiness of an environment string
(`!!process.env['CI']`): absent and the empty string are falsy. -/
def envTruthy : Option String → Bool
  | none => false
  | some s => s != ""

/-- JavaScript `v || d` on an environment string: the default is taken when
the variable is absent or empty (both falsy). -/
def orDefault (v : Option String) (d : String) : String :=
  match v with
  | none => d
  | some s => if s == "" then d else s

/-- The `use` block of `defineConfig` in playwright.config.ts. -/
structure UseOptions where
  baseURL : String
  trace : String
  headless : Bool
  screenshot : String
  actionTimeout : Nat
  navigationTimeout : Nat
deriving Repr, DecidableEq

/-- One reporter entry of the `reporter` array in playwright.config.ts. -/
structure ReporterEntry where
  kind : String
  outputFile : Option String
deriving Repr, DecidableEq

/-- The configuration object produced by `defineConfig` in
playwright.config.ts (commented-out entries omitted, as in the source). -/
structure PlaywrightConfig where
  testDir : String
  fullyParallel : Bool
  forbidOnly : Bool
  retries : Nat
  workers : Nat
  reporter : List ReporterEntry
  use : UseOptions
  projects : List String
deriving Repr, DecidableEq

/-- Direct embedding of the `defineConfig({...})` call of
src/playwright.config.ts as a function of the process environment. -/
def defineConfig (env : Env) : PlaywrightConfig :=
  { testDir := "./tests"
    fullyParallel := true
    forbidOnly := envTruthy env.ci
    retries := if envTruthy env.ci then 0 else 0
    workers := if envTruthy env.ci then 1 else 2
    reporter := [{ kind := "html", outputFile := none },
                 { kind := "json", outputFile := some "test-results/results.json" },
                 { kind := "junit", outputFile := some "test-results/results.xml" }]
    use := { baseURL := orDefault env.baseUrl "https://ecommercepracticeportal.netlify.app"
             trace := "on-first-retry"
             headless := false
             screenshot := "only-on-failure"
             actionTimeout := 10000
             navigationTimeout := 30000 }
    projects := ["chromium"] }

/-- The option keys actually set by src/playwright.config.ts: the top-level
keys of the `defineConfig` argument and the keys of its `use` block. -/
def configRecognizedOptions : List String :=
  ["testDir", "fullyParallel", "forbidOnly", "retries", "workers", "reporter",
   "projects", "baseURL", "trace", "headless", "screenshot", "actionTimeout",
   "navigationTimeout"]

/-- The option keys the specification (section 6, Configuration) says are
recognized, written with the spec's own names.  This list follows the spec's
words, not the source; it exists to be compared with
`configRecognizedOptions`. -/
def specRecognizedOptions : List String :=
  ["baseURL", "actionTimeoutMs", "navigationTimeoutMs", "workerCount",
   "retryCount", "headless"]

/-- The code names under which the six spec-recognized option meanings appear
in playwright.config.ts. -/
def specOptionCodeNames : List String :=
  ["baseURL", "actionTimeout", "navigationTimeout", "workers", "retries",
   "headless"]

/-! ### Scenario Runner (modelled from the spec) -/

/-- Outcome recorded for one step of a scenario. -/
inductive StepOutcome where
  | passed
  | failed (err : String)
  | skipped
deriving Repr, DecidableEq

/-- Modelled from the spec: a scenario step is a named action against the
browser session that either returns normally or raises an error
(src/ has only the docs for the runner; utils/ and tests/ are absent). -/
structure Step where
  name : String
  run : Unit → Except String Unit

/-- Whether a step's action returns normally when executed. -/
def stepOk (s : Step) : Bool :=
  match s.run () with
  | Except.ok _ => true
  | Except.error _ => false

/-- Modelled from the spec: the Scenario Runner executes steps strictly in
order; an uncaught step error halts the scenario and records every
unexecuted step as skipped. -/
def runSteps : List Step → List (String × StepOutcome)
  | [] => []
  | s :: rest =>
    match s.run () with
    | Except.ok _ => (s.name, StepOutcome.passed) :: runSteps rest
    | Except.error e =>
        (s.name, StepOutcome.failed e) ::
          rest.map (fun r => (r.name, StepOutcome.skipped))

/-- Is a recorded outcome `passed`. -/
def isPassed : StepOutcome → Bool
  | StepOutcome.passed => true
  | _ => false

/-- Is a recorded outcome `failed`. -/
def isFailed : StepOutcome → Bool
  | StepOutcome.failed _ => true
  | _ => false

/-- Is a recorded outcome `skipped`. -/
def isSkipped : StepOutcome → Bool
  | StepOutcome.skipped => true
  | _ => false

/-- Number of steps reported passed in a scenario result. -/
def countPassed (r : List (String × StepOutcome)) : Nat :=
  r.countP (fun x => isPassed x.2)

/-- Number of steps reported failed in a scenario result. -/
def countFailed (r : List (String × StepOutcome)) : Nat :=
  r.countP (fun x => isFailed x.2)

/-- Number of steps reported skipped in a scenario result. -/
def countSkipped (r : List (String × StepOutcome)) : Nat :=
  r.countP (fun x => isSkipped x.2)

/-- Modelled from the spec: the indices of the steps the runner actually
attempts (executes), starting from index `i`.  The runner attempts steps in
order and stops after the first failing one; there is no retry, so this
trace is the complete record of executions. -/
def attemptTrace : Nat → List Step → List Nat
  | _, [] => []
  | i, s :: rest =>
    match s.run () with
    | Except.ok _ => i :: attemptTrace (i + 1) rest
    | Except.error _ => [i]

/-! ### Base Page screenshot (modelled from the spec) -/

/-- What the Base Page records about one diagnostic screenshot attempt. -/
inductive ShotOutcome where
  | captured
  | loggedFailure (msg : String)
deriving Repr, DecidableEq

/-- The log entry `screenshot` produces for a given engine capture result. -/
def shotLogOf (engineCapture : Except String Unit) : ShotOutcome :=
  match engineCapture with
  | Except.ok _ => ShotOutcome.captured
  | Except.error e => ShotOutcome.loggedFailure e

/-- Modelled from the spec: BasePage.screenshot is best-effort — it wraps the
engine's capture call, and when capture fails (e.g. an invalid path) it logs
the error and returns normally; the `Except` return type is the channel an
error would have to use to reach the caller. -/
def screenshot (engineCapture : Except String Unit) : Except String ShotOutcome :=
  Except.ok (shotLogOf engineCapture)

/-- Modelled from the spec: the Scenario Runner with diagnostic capture — on
a step failure it additionally takes a screenshot (`shots i` is the engine
capture result for step index `i`); the recorded pass/fail outcome is
computed from the step alone. -/
def runStepsDiag (shots : Nat → Except String Unit) :
    Nat → List Step → List ((String × StepOutcome) × Option ShotOutcome)
  | _, [] => []
  | i, s :: rest =>
    match s.run () with
    | Except.ok _ => ((s.name, StepOutcome.passed), none) :: runStepsDiag shots (i + 1) rest
    | Except.error e =>
        (((s.name, StepOutcome.failed e)),
          (screenshot (shots i)).toOption) ::
          rest.map (fun r => ((r.name, StepOutcome.skipped), none))

/-! ### Base Page click (modelled from the spec) -/

/-- What a locator resolves to at one polling instant: how many elements
match, and whether the (first) match is visible and enabled. -/
structure LocatorSnapshot where
  matchCount : Nat
  visible : Bool
  enabled : Bool

/-- A locator is interactable when it resolves to exactly one visible,
enabled element. -/
def interactable (e : LocatorSnapshot) : Bool :=
  e.matchCount == 1 && e.visible && e.enabled

/-- Result of a click attempt: the click was dispatched at poll instant
`atTime`, or the wait expired. -/
inductive ClickResult where
  | clicked (atTime : Nat)
  | elementNotInteractable
deriving Repr, DecidableEq

/-- Modelled from the spec: the bounded wait underlying `click` — poll the
locator at instants `0, 1, ..., timeout`; dispatch the click at the first
interactable instant, or report `ElementNotInteractable` when the wait
expires.  `dom t` is the locator's state at instant `t`. -/
def waitForInteractable (dom : Nat → LocatorSnapshot) (timeout : Nat) : ClickResult :=
  match (List.range (timeout + 1)).find? (fun t => interactable (dom t)) with
  | some t => ClickResult.clicked t
  | none => ClickResult.elementNotInteractable

/-- Per-call options of `click`: an optional timeout override. -/
structure ClickOptions where
  timeout : Option Nat

/-- Modelled from the spec: `click(locator, options)` waits until the locator
is interactable within `options.timeout`, defaulting to the configuration's
global action timeout. -/
def click (cfg : PlaywrightConfig) (dom : Nat → LocatorSnapshot)
    (options : ClickOptions) : ClickResult :=
  waitForInteractable dom (options.timeout.getD cfg.use.actionTimeout)

/-! ### Test Data Provider (modelled from the spec) -/

/-- The character used to print one decimal digit of the counter suffix. -/
def digitChar (d : Nat) : Char := Char.ofNat (48 + d)

/-- Decimal rendering (as characters) of the generator counter. -/
def counterChars (n : Nat) : List Char := (Nat.digits 10 n).map digitChar

/-- Modelled from the spec: state of the test-data random generators — a
process-local counter used as a uniqueness suffix; each process starts it
afresh at 0. -/
structure GenState where
  counter : Nat
deriving Repr, DecidableEq

/-- The generator state a fresh process starts with. -/
def procInit : GenState := { counter := 0 }

/-- The email value generated for counter value `n`. -/
def emailOf (n : Nat) : String :=
  String.mk ('u' :: 's' :: 'e' :: 'r' :: counterChars n ++
    ('@' :: 't' :: 'e' :: 's' :: 't' :: '.' :: 'c' :: 'o' :: 'm' :: []))

/-- Modelled from the spec: `randomEmail()` returns a value carrying the
current counter as a uniqueness suffix and advances the counter. -/
def randomEmail (s : GenState) : String × GenState :=
  (emailOf s.counter, { counter := s.counter + 1 })

/-! ### Checkout Page (modelled from the spec) -/

/-- Billing data passed to guest checkout. -/
structure BillingData where
  firstName : String
  lastName : String
  email : String
  address : String
  city : String
  postcode : String

/-- The ordered field fills `completeGuestCheckout` performs. -/
def checkoutFields (bd : BillingData) : List (String × String) :=
  [("firstName", bd.firstName), ("lastName", bd.lastName),
   ("email", bd.email), ("address", bd.address),
   ("city", bd.city), ("postcode", bd.postcode)]

/-- Browser-session state visible to the checkout page: which form fields
have been filled, and whether the order form was submitted. -/
structure SessionState where
  filled : List (String × String)
  submitted : Bool
deriving Repr, DecidableEq

/-- Modelled from the spec: the chained fills of `completeGuestCheckout`,
starting at fill index `i`; `fillOk t` tells whether the `t`-th fill
succeeds (an engine timeout makes it fail).  A failure stops the chain where
it is — fills already performed are not undone. -/
def fillChain (fillOk : Nat → Bool) :
    Nat → List (String × String) → SessionState → SessionState × Except String Unit
  | _, [], s => ({ s with submitted := true }, Except.ok ())
  | i, f :: rest, s =>
    if fillOk i then
      fillChain fillOk (i + 1) rest { s with filled := s.filled ++ [f] }
    else (s, Except.error "ElementNotInteractable")

/-- Modelled from the spec: `completeGuestCheckout(billingData)` chains the
billing field fills and then submits; the composite is not atomic. -/
def completeGuestCheckout (fillOk : Nat → Bool) (bd : BillingData)
    (s : SessionState) : SessionState × Except String Unit :=
  fillChain fillOk 0 (checkoutFields bd) s

/-! ### Scenario scheduling (modelled from the spec) -/

/-- State of the external runner's scheduler: scenarios waiting to start,
scenarios currently running (each identified by its scenario id, which is
also the id of the fresh session created for it), and finished scenarios. -/
structure SchedState where
  pending : List Nat
  running : List Nat
  finished : List Nat
deriving Repr, DecidableEq

/-- All scenario ids present in a scheduler state. -/
def allIds (s : SchedState) : List Nat :=
  s.pending ++ s.running ++ s.finished

/-- Modelled from the spec: one scheduler transition — a pending scenario may
start only while fewer than `w` scenarios are running (each started scenario
gets its own fresh session, identified by the scenario id), and a running
scenario may finish. -/
inductive SchedStep (w : Nat) : SchedState → SchedState → Prop where
  | start (i : Nat) (rest : List Nat) (s : SchedState) :
      s.pending = i :: rest → s.running.length < w →
      SchedStep w s { pending := rest, running := i :: s.running, finished := s.finished }
  | finish (pre post : List Nat) (i : Nat) (s : SchedState) :
      s.running = pre ++ i :: post →
      SchedStep w s { pending := s.pending, running := pre ++ post, finished := i :: s.finished }

/-- Scheduler states reachable from a start state under worker bound `w`. -/
inductive SchedReachable (w : Nat) (start : SchedState) : SchedState → Prop where
  | refl : SchedReachable w start start
  | step {s t : SchedState} :
      SchedReachable w start s → SchedStep w s t → SchedReachable w start t

/-- The scheduler's start state for `n` scenarios: all pending, none
running, none finished. -/
def initSched (n : Nat) : SchedState :=
  { pending := List.range n, running := [], finished := [] }

/-- The scheduler invariant: no more than `w` scenarios run concurrently,
and every scenario id (hence every session) occurs at most once across the
whole state. -/
def SchedInv (w : Nat) (s : SchedState) : Prop :=
  s.running.length ≤ w ∧ (allIds s).Nodup

/-! ### Concrete sample values used by witnesses -/

/-- A step whose action returns normally. -/
def okStep : Step :=
  { name := "ok", run := fun _ => Except.ok () }

/-- A step whose action raises an error. -/
def failStep : Step :=
  { name := "boom", run := fun _ => Except.error "E" }

/-- Sample billing record. -/
def sampleBilling : BillingData :=
  { firstName := "Ada", lastName := "Lovelace", email := "ada@test.com",
    address := "1 Street", city := "London", postcode := "E1" }

/-- A session in which nothing has been filled or submitted yet. -/
def emptySession : SessionState :=
  { filled := [], submitted := false }

/-- A fill pattern in which the first fill succeeds and the second fails. -/
def failSecondFill : Nat → Bool := fun t => t == 0

/-! ## Theorems -/

/-! ### Configuration claims -/

/-- Claim C10: the configuration sets `headless` to `false` unconditionally —
no environment can enable headless mode. -/
theorem C10_headless_always_false (env : Env) :
    (defineConfig env).use.headless = false := rfl

/-- Claim C9: `baseURL` is the default
`https://ecommercepracticeportal.netlify.app` when `BASE_URL` is unset or
empty, and is the value of `BASE_URL` when it is set non-empty. -/
theorem C9_baseURL_from_env (env : Env) :
    ((env.baseUrl = none ∨ env.baseUrl = some "") →
      (defineConfig env).use.baseURL = "https://ecommercepracticeportal.netlify.app") ∧
    (∀ s : String, env.baseUrl = some s → s ≠ "" →
      (defineConfig env).use.baseURL = s) := by
  constructor
  · rintro (h | h) <;> simp [defineConfig, orDefault, h]
  · intro s hs hne
    simp [defineConfig, orDefault, hs, hne]

/-- Witness for C9 at two concrete environments. -/
theorem C9_baseURL_from_env_witness :
    (defineConfig { ci := none, baseUrl := none }).use.baseURL =
      "https://ecommercepracticeportal.netlify.app" ∧
    (defineConfig { ci := none, baseUrl := some "http://localhost:3000" }).use.baseURL =
      "http://localhost:3000" :=
  ⟨(C9_baseURL_from_env { ci := none, baseUrl := none }).1 (Or.inl rfl),
   (C9_baseURL_from_env { ci := none, baseUrl := some "http://localhost:3000" }).2
     "http://localhost:3000" rfl (by decide)⟩

/-- Counterexample to claim C2: the configuration does not recognize exactly
the six spec-listed options — it also sets `trace`, and the spec's name
`actionTimeoutMs` is not an option of the configuration file. -/
theorem C2_counterexample :
    ("trace" ∈ configRecognizedOptions ∧ "trace" ∉ specRecognizedOptions) ∧
    ("actionTimeoutMs" ∈ specRecognizedOptions ∧
      "actionTimeoutMs" ∉ configRecognizedOptions) := by decide

/-- Claim C2 (amended): the configuration binds every one of the six
spec-stated option meanings — under the code names `baseURL`,
`actionTimeout`, `navigationTimeout`, `workers`, `retries`, `headless` — to
a value of the stated meaning, but the recognized option set is a strict
superset of those six (it also contains `testDir`, `fullyParallel`,
`forbidOnly`, `reporter`, `projects`, `trace`, `screenshot`). -/
theorem C2_options_bound (env : Env) :
    specOptionCodeNames.all (fun k => configRecognizedOptions.contains k) = true ∧
    (defineConfig env).use.baseURL =
      orDefault env.baseUrl "https://ecommercepracticeportal.netlify.app" ∧
    (defineConfig env).use.actionTimeout = 10000 ∧
    (defineConfig env).use.navigationTimeout = 30000 ∧
    (defineConfig env).workers = (if envTruthy env.ci then 1 else 2) ∧
    (defineConfig env).retries = 0 ∧
    (defineConfig env).use.headless = false := by
  refine ⟨by decide, rfl, rfl, rfl, rfl, ?_, rfl⟩
  simp [defineConfig]

/-! ### Scenario Runner: no retries -/

/-- Every step index the runner attempts is at least the starting index. -/
theorem attemptTrace_ge (js : List Step) :
    ∀ (i x : Nat), x ∈ attemptTrace i js → i ≤ x := by
  induction js with
  | nil =>
    intro i x hx
    simp [attemptTrace] at hx
  | cons s rest ih =>
    intro i x hx
    rw [attemptTrace] at hx
    cases h : s.run () with
    | ok u =>
      rw [h] at hx
      simp only [List.mem_cons] at hx
      rcases hx with rfl | hx
      · exact Nat.le_refl x
      · exact Nat.le_of_succ_le (ih (i + 1) x hx)
    | error e =>
      rw [h] at hx
      simp at hx
      omega

/-- The runner's execution trace never repeats a step index: no step is
executed twice. -/
theorem attemptTrace_nodup (js : List Step) :
    ∀ i : Nat, (attemptTrace i js).Nodup := by
  induction js with
  | nil =>
    intro i
    simp [attemptTrace]
  | cons s rest ih =>
    intro i
    rw [attemptTrace]
    cases h : s.run () with
    | ok u =>
      refine List.nodup_cons.mpr ⟨fun hmem => ?_, ih (i + 1)⟩
      have := attemptTrace_ge rest (i + 1) i hmem
      omega
    | error e =>
      simp

/-- Claim C4: the configured retry budget is zero in every environment, and
the Scenario Runner never re-executes a step — its execution trace contains
each step index at most once. -/
theorem C4_zero_retries :
    (∀ env : Env, (defineConfig env).retries = 0) ∧
    (∀ (i : Nat) (js : List Step), (attemptTrace i js).Nodup) := by
  constructor
  · intro env
    simp [defineConfig]
  · intro i js
    exact attemptTrace_nodup js i

/-! ### Scenario Runner: outcome counts -/

/-- Running a journey whose prefix consists of succeeding steps records those
steps as passed and continues with the rest. -/
theorem runSteps_ok_append (pre rest : List Step)
    (h : ∀ s ∈ pre, stepOk s = true) :
    runSteps (pre ++ rest) =
      pre.map (fun s => (s.name, StepOutcome.passed)) ++ runSteps rest := by
  induction pre with
  | nil => simp
  | cons s pre ih =>
    have hs : stepOk s = true := h s (by simp)
    have hrest : ∀ x ∈ pre, stepOk x = true := fun x hx => h x (by simp [hx])
    rw [List.cons_append, runSteps]
    cases hr : s.run () with
    | ok u => simp [ih hrest]
    | error e =>
      exfalso
      rw [stepOk, hr] at hs
      simp at hs

/-- The Scenario Runner records exactly one outcome per defined step. -/
theorem runSteps_length (js : List Step) : (runSteps js).length = js.length := by
  induction js with
  | nil => rfl
  | cons s rest ih =>
    rw [runSteps]
    cases h : s.run () with
    | ok u => simp [ih]
    | error e => simp

/-- A step that does not return normally raises some error. -/
theorem stepOk_false_elim (s : Step) (h : stepOk s = false) :
    ∃ e, s.run () = Except.error e := by
  rw [stepOk] at h
  cases hr : s.run () with
  | ok u => rw [hr] at h; simp at h
  | error e => exact ⟨e, rfl⟩

/-- Claim C1: for a journey whose first `k − 1` steps succeed and whose
`k`-th step fails (here `k = pre.length + 1`), the scenario result reports
`k − 1` passed outcomes, one failed outcome and `N − k` skipped outcomes,
and the result has exactly one outcome per defined step. -/
theorem C1_step_outcomes (pre : List Step) (fs : Step) (post : List Step)
    (hpre : ∀ s ∈ pre, stepOk s = true) (hf : stepOk fs = false) :
    countPassed (runSteps (pre ++ fs :: post)) = (pre.length + 1) - 1 ∧
    countFailed (runSteps (pre ++ fs :: post)) = 1 ∧
    countSkipped (runSteps (pre ++ fs :: post)) =
      (pre ++ fs :: post).length - (pre.length + 1) ∧
    (runSteps (pre ++ fs :: post)).length = (pre ++ fs :: post).length := by
  obtain ⟨e, he⟩ := stepOk_false_elim fs hf
  have hr : runSteps (pre ++ fs :: post) =
      pre.map (fun s => (s.name, StepOutcome.passed)) ++
        ((fs.name, StepOutcome.failed e) ::
          post.map (fun r => (r.name, StepOutcome.skipped))) := by
    rw [runSteps_ok_append pre (fs :: post) hpre, runSteps, he]
  refine ⟨?_, ?_, ?_, runSteps_length _⟩
  · rw [countPassed, hr]
    simp [List.countP_append, List.countP_cons, List.countP_map,
      Function.comp_def, isPassed]
  · rw [countFailed, hr]
    simp [List.countP_append, List.countP_cons, List.countP_map,
      Function.comp_def, isFailed]
  · rw [countSkipped, hr]
    simp [List.countP_append, List.countP_cons, List.countP_map,
      Function.comp_def, isSkipped, List.length_append, List.length_cons]
    omega

/-- Witness for C1 on the three-step journey ok, boom, ok: one passed, one
failed, one skipped, three outcomes in total. -/
theorem C1_step_outcomes_witness :
    countPassed (runSteps ([okStep] ++ failStep :: [okStep])) = 1 ∧
    countFailed (runSteps ([okStep] ++ failStep :: [okStep])) = 1 ∧
    countSkipped (runSteps ([okStep] ++ failStep :: [okStep])) = 1 ∧
    (runSteps ([okStep] ++ failStep :: [okStep])).length =
      ([okStep] ++ failStep :: [okStep]).length :=
  C1_step_outcomes [okStep] failStep [okStep]
    (by intro s hs; simp at hs; subst hs; rfl) (by rfl)

/-! ### Base Page: screenshot is best-effort -/

/-- Claim C3: `screenshot` always returns normally — every capture result,
failing ones included, is turned into an ok log entry, so no error reaches
the caller — and the scenario outcomes recorded by the runner with
diagnostic capture are exactly those of the plain runner, whatever the
capture results are, so capture failure never changes pass/fail. -/
theorem C3_screenshot_never_propagates :
    (∀ c : Except String Unit, screenshot c = Except.ok (shotLogOf c)) ∧
    (∀ (shots : Nat → Except String Unit) (i : Nat) (js : List Step),
      (runStepsDiag shots i js).map Prod.fst = runSteps js) := by
  constructor
  · intro c
    rfl
  · intro shots i js
    induction js generalizing i with
    | nil => rfl
    | cons s rest ih =>
      rw [runStepsDiag, runSteps]
      cases h : s.run () with
      | ok u => simp [ih]
      | error e => simp [Function.comp_def]

/-! ### Base Page: click wait semantics -/

/-- Claim C5: `click` dispatches a click exactly when some poll instant
within the effective timeout (the per-call override, defaulting to the
configured global action timeout) finds the locator interactable; it reports
`ElementNotInteractable` exactly when no instant within the timeout does; a
dispatched click lands on an interactable snapshot; and with no per-call
override the wait bound is the configured 10000 ms action timeout. -/
theorem C5_click_wait (cfg : PlaywrightConfig) (dom : Nat → LocatorSnapshot)
    (opts : ClickOptions) :
    ((∃ t, click cfg dom opts = ClickResult.clicked t) ↔
      (∃ t, t ≤ opts.timeout.getD cfg.use.actionTimeout ∧ interactable (dom t) = true)) ∧
    (click cfg dom opts = ClickResult.elementNotInteractable ↔
      (∀ t, t ≤ opts.timeout.getD cfg.use.actionTimeout → interactable (dom t) = false)) ∧
    (∀ t, click cfg dom opts = ClickResult.clicked t → interactable (dom t) = true) ∧
    (∀ (env : Env) (d : Nat → LocatorSnapshot),
      click (defineConfig env) d { timeout := none } = waitForInteractable d 10000) := by
  rw [click, waitForInteractable]
  cases h : (List.range (opts.timeout.getD cfg.use.actionTimeout + 1)).find?
      (fun t => interactable (dom t)) with
  | some t =>
    have hmem := List.mem_of_find?_eq_some h
    have hint := List.find?_some h
    rw [List.mem_range, Nat.lt_succ_iff] at hmem
    refine ⟨?_, ?_, ?_, fun env d => rfl⟩
    · exact ⟨fun _ => ⟨t, hmem, hint⟩, fun _ => ⟨t, rfl⟩⟩
    · constructor
      · intro hcontra
        exact absurd hcontra (by simp)
      · intro hall
        rw [hall t hmem] at hint
        exact absurd hint (by simp)
    · intro u hu
      have : t = u := by injection hu
      rw [← this]
      exact hint
  | none =>
    rw [List.find?_eq_none] at h
    have hall : ∀ t, t ≤ opts.timeout.getD cfg.use.actionTimeout →
        interactable (dom t) = false := by
      intro t ht
      have := h t (List.mem_range.mpr (Nat.lt_succ_iff.mpr ht))
      simpa using this
    refine ⟨?_, ?_, ?_, fun env d => rfl⟩
    · constructor
      · rintro ⟨t, ht⟩
        exact absurd ht (by simp)
      · rintro ⟨t, ht, hint⟩
        rw [hall t ht] at hint
        exact absurd hint (by simp)
    · exact ⟨fun _ => hall, fun _ => rfl⟩
    · intro u hu
      exact absurd hu (by simp)

/-! ### Test Data Provider: random value uniqueness -/

/-- Distinct decimal digits print as distinct characters. -/
theorem digitChar_inj : ∀ a < 10, ∀ b < 10, digitChar a = digitChar b → a = b := by
  decide

/-- Printing digit lists as characters is injective on lists of decimal
digits. -/
theorem map_digitChar_inj : ∀ (l1 l2 : List Nat),
    (∀ d ∈ l1, d < 10) → (∀ d ∈ l2, d < 10) →
    l1.map digitChar = l2.map digitChar → l1 = l2 := by
  intro l1
  induction l1 with
  | nil =>
    intro l2 _ _ h
    cases l2 with
    | nil => rfl
    | cons b t => simp at h
  | cons a t1 ih =>
    intro l2 h1 h2 h
    cases l2 with
    | nil => simp at h
    | cons b t2 =>
      simp only [List.map_cons, List.cons.injEq] at h
      have ha : a < 10 := h1 a (by simp)
      have hb : b < 10 := h2 b (by simp)
      have hab : a = b := digitChar_inj a ha b hb h.1
      have ht : t1 = t2 :=
        ih t2 (fun d hd => h1 d (by simp [hd])) (fun d hd => h2 d (by simp [hd])) h.2
      rw [hab, ht]

/-- The generated email value determines the counter it was generated from. -/
theorem emailOf_inj (m n : Nat) (h : emailOf m = emailOf n) : m = n := by
  rw [emailOf, emailOf] at h
  have hdata : ('u' :: 's' :: 'e' :: 'r' :: counterChars m ++
      ('@' :: 't' :: 'e' :: 's' :: 't' :: '.' :: 'c' :: 'o' :: 'm' :: [])) =
      ('u' :: 's' :: 'e' :: 'r' :: counterChars n ++
      ('@' :: 't' :: 'e' :: 's' :: 't' :: '.' :: 'c' :: 'o' :: 'm' :: [])) := by
    injection h
  simp only [List.cons_append, List.cons.injEq, true_and] at hdata
  have hchars : counterChars m = counterChars n := List.append_cancel_right hdata
  have hdigits : Nat.digits 10 m = Nat.digits 10 n := by
    refine map_digitChar_inj (Nat.digits 10 m) (Nat.digits 10 n) ?_ ?_ hchars
    · intro d hd
      exact Nat.digits_lt_base (by norm_num) hd
    · intro d hd
      exact Nat.digits_lt_base (by norm_num) hd
  exact Nat.digits_inj_iff.mp hdigits

/-- Claim C6: two successive `randomEmail` calls in one process return
distinct values (and, more generally, distinct counter values give distinct
emails, so every value is unique within a run), while two processes — each
starting from the fresh generator state — can emit the same value, so
uniqueness does not extend across processes. -/
theorem C6_randomEmail_unique (s : GenState) :
    (randomEmail s).1 ≠ (randomEmail (randomEmail s).2).1 ∧
    (∀ m n : Nat, m ≠ n → emailOf m ≠ emailOf n) ∧
    (∃ s1 s2 : GenState, (randomEmail s1).1 = (randomEmail s2).1) := by
  refine ⟨?_, ?_, ⟨procInit, procInit, rfl⟩⟩
  · intro h
    have : s.counter = s.counter + 1 := emailOf_inj s.counter (s.counter + 1) h
    omega
  · intro m n hmn h
    exact hmn (emailOf_inj m n h)

/-! ### Checkout Page: non-atomicity -/

/-- Claim C7: `completeGuestCheckout` is not atomic — when the first fill
succeeds and the second fails, the call returns an error, the session is
left holding the first fill (a partially-filled state different from the
state before the call), and the order was never submitted. -/
theorem C7_checkout_not_atomic (bd : BillingData) (s0 : SessionState)
    (fillOk : Nat → Bool) (h0 : fillOk 0 = true) (h1 : fillOk 1 = false) :
    (completeGuestCheckout fillOk bd s0).2 = Except.error "ElementNotInteractable" ∧
    (completeGuestCheckout fillOk bd s0).1.filled =
      s0.filled ++ [("firstName", bd.firstName)] ∧
    (completeGuestCheckout fillOk bd s0).1 ≠ s0 ∧
    (completeGuestCheckout fillOk bd s0).1.submitted = s0.submitted := by
  have hrun : completeGuestCheckout fillOk bd s0 =
      ({ s0 with filled := s0.filled ++ [("firstName", bd.firstName)] },
        Except.error "ElementNotInteractable") := by
    rw [completeGuestCheckout, checkoutFields, fillChain, h0, if_pos rfl,
      fillChain, h1]
    simp
  refine ⟨by rw [hrun], by rw [hrun], ?_, by rw [hrun]⟩
  rw [hrun]
  intro hcontra
  have hlen := congrArg (fun st => st.filled.length) hcontra
  simp at hlen

/-- Witness for C7: with an empty session, sample billing data, and a fill
pattern whose second fill fails, the call errors and leaves exactly the
first field filled. -/
theorem C7_checkout_not_atomic_witness :
    (completeGuestCheckout failSecondFill sampleBilling emptySession).2 =
      Except.error "ElementNotInteractable" ∧
    (completeGuestCheckout failSecondFill sampleBilling emptySession).1.filled =
      emptySession.filled ++ [("firstName", sampleBilling.firstName)] ∧
    (completeGuestCheckout failSecondFill sampleBilling emptySession).1 ≠ emptySession ∧
    (completeGuestCheckout failSecondFill sampleBilling emptySession).1.submitted =
      emptySession.submitted :=
  C7_checkout_not_atomic sampleBilling emptySession failSecondFill (by rfl) (by rfl)

/-! ### Scenario scheduling: worker bound and session exclusivity -/

/-- The scheduler's start state satisfies the invariant. -/
theorem schedInv_init (w n : Nat) : SchedInv w (initSched n) := by
  constructor
  · simp [initSched]
  · simp [allIds, initSched, List.nodup_range]

/-- Every scheduler transition preserves the invariant. -/
theorem schedInv_step {w : Nat} {s t : SchedState} (hinv : SchedInv w s)
    (hst : SchedStep w s t) : SchedInv w t := by
  obtain ⟨hlen, hnd⟩ := hinv
  cases hst with
  | start i rest _ hp hlt =>
    constructor
    · simpa using hlt
    · have hnd2 : (i :: (rest ++ (s.running ++ s.finished))).Nodup := by
        simpa [allIds, hp] using hnd
      have htar : (rest ++ i :: (s.running ++ s.finished)).Nodup :=
        List.perm_middle.symm.nodup hnd2
      simpa [allIds] using htar
  | finish pre post i _ hr =>
    constructor
    · have hsplit : s.running.length = pre.length + post.length + 1 := by
        simp [hr]
        omega
      simp only [List.length_append]
      omega
    · have hsrc : (s.pending ++ (pre ++ (i :: (post ++ s.finished)))).Nodup := by
        simpa [allIds, hr, List.append_assoc] using hnd
      have hperm : List.Perm
          (s.pending ++ (pre ++ (i :: (post ++ s.finished))))
          (s.pending ++ (pre ++ (post ++ (i :: s.finished)))) :=
        (List.perm_middle.symm.append_left pre).append_left s.pending
      have htar := hperm.nodup hsrc
      simpa [allIds, List.append_assoc] using htar

/-- Claim C8: in every scheduler state reachable under the configured worker
count, the number of concurrently running scenarios never exceeds that
worker count, and the running scenarios hold pairwise distinct sessions
(each session is owned by exactly one running scenario). -/
theorem C8_session_exclusive (env : Env) (n : Nat) (s : SchedState)
    (h : SchedReachable ((defineConfig env).workers) (initSched n) s) :
    s.running.length ≤ (defineConfig env).workers ∧ s.running.Nodup := by
  have hinv : SchedInv ((defineConfig env).workers) s := by
    induction h with
    | refl => exact schedInv_init _ n
    | step hr hst ih => exact schedInv_step ih hst
  obtain ⟨hlen, hnd⟩ := hinv
  have hnd2 : (s.pending ++ (s.running ++ s.finished)).Nodup := by
    simpa [allIds] using hnd
  exact ⟨hlen, hnd2.of_append_right.of_append_left⟩

/-- Witness for C8: in the default environment (worker count 2), after
starting scenario 0 out of two pending scenarios, one scenario is running —
within the bound — on its own session. -/
theorem C8_session_exclusive_witness :
    (SchedState.mk [1] [0] []).running.length ≤
      (defineConfig { ci := none, baseUrl := none }).workers ∧
    (SchedState.mk [1] [0] []).running.Nodup :=
  C8_session_exclusive { ci := none, baseUrl := none } 2 (SchedState.mk [1] [0] [])
    (SchedReachable.step SchedReachable.refl
      (SchedStep.start 0 [1] (initSched 2) (by decide) (by decide)))

end PW
